import Mathlib

/-!
# Verification of the ui-video source-lifecycle controller and plugin algorithms

Shallow embedding of `src/es6/Video/UiVideoComponent.js` (class `UiVideoComponent`
and plugin `UiVideoPluginResponsive`) and `src/es6/Plugins/UiVideoPluginSound.js`
(class `UiVideoPluginSound`).

Modelling conventions:
* JS numbers used as list indices are modelled as `Int` (the claims only exercise
  integral indices); volume percentages are modelled as `ℚ`.
* A JS value that may be `null`/`undefined` or absent is an `Option`.
* The widget's mutable private fields (`#current_index`, `#current_source`, the
  state registry, the video element's child sources and poster attribute) form
  the `Component` record; every operation is a pure function from the entry
  state to an `Outcome` which carries the resulting state, the list of events
  dispatched during the call, and the exception thrown, if any (JS mutations
  performed before a `throw` survive, so errors carry the state too).
* Event listeners and plugin hooks are a parameter (`Env`): the cancelable
  `video.source.update` dispatch lets listeners mutate the detail source object
  in place (`updateMutate`) and veto the default (`updateCancel`); the plugin
  host hook `run('selectSource', [data])` may rewrite `data.index` (`hookIndex`,
  `none` models a non-number value) and `data.source` (`hookSource`, `none`
  models a falsy value). Listeners are modelled as detail transformers; they do
  not themselves mutate the widget record.
-/

/-- Partial source override carried by a responsive breakpoint entry:
`Object.assign( source, breakpoint )` copies exactly the fields present. -/
structure SourceOverride where
  src : Option String := none
  type : Option String := none
  poster : Option String := none
deriving DecidableEq, Repr

/-- A video source object `{ src, type, poster }` plus the plugin-contributed
`responsive` map (`Object.entries` order = declaration order, modelled as a
list of query/override pairs). A field is `none` when absent or not a string. -/
structure Source where
  src : Option String := none
  type : Option String := none
  poster : Option String := none
  responsive : Option (List (String × SourceOverride)) := none
deriving DecidableEq, Repr

/-- Names of the default states registered at construction
(`UiVideoComponent` constructor, `states` map). -/
inductive StateName where
  | initialized
  | loading
  | playable
  | playing
  | paused
  | ended
  | error
  | sourceNone
  | controlsDefault
  | controlsNative
  | controlsShow
deriving DecidableEq, Repr

/-- The boolean valuation of the default state registry. -/
structure VideoStates where
  initialized : Bool := false
  loading : Bool := false
  playable : Bool := false
  playing : Bool := false
  paused : Bool := false
  ended : Bool := false
  error : Bool := false
  sourceNone : Bool := false
  controlsDefault : Bool := false
  controlsNative : Bool := false
  controlsShow : Bool := false
deriving DecidableEq, Repr

/-- The `unsets` list declared for each state in the constructor's state map. -/
def unsetsOf : StateName → List StateName
  | .loading => [.paused, .playing, .playable, .error]
  | .playable => [.loading]
  | .playing => [.paused]
  | .paused => [.playing]
  | .ended => [.playing]
  | .error => [.paused, .playing, .playable, .loading]
  | .controlsDefault => [.controlsNative]
  | .controlsNative => [.controlsDefault]
  | _ => []

/-- Write one state's boolean value. -/
def setVal (v : VideoStates) (n : StateName) (b : Bool) : VideoStates :=
  match n with
  | .initialized => { v with initialized := b }
  | .loading => { v with loading := b }
  | .playable => { v with playable := b }
  | .playing => { v with playing := b }
  | .paused => { v with paused := b }
  | .ended => { v with ended := b }
  | .error => { v with error := b }
  | .sourceNone => { v with sourceNone := b }
  | .controlsDefault => { v with controlsDefault := b }
  | .controlsNative => { v with controlsNative := b }
  | .controlsShow => { v with controlsShow := b }

/-- Read one state's boolean value (`states.is( name )`). -/
def getVal (v : VideoStates) (n : StateName) : Bool :=
  match n with
  | .initialized => v.initialized
  | .loading => v.loading
  | .playable => v.playable
  | .playing => v.playing
  | .paused => v.paused
  | .ended => v.ended
  | .error => v.error
  | .sourceNone => v.sourceNone
  | .controlsDefault => v.controlsDefault
  | .controlsNative => v.controlsNative
  | .controlsShow => v.controlsShow

/-- `states.set( name )`: mark `name` true, then mark every state of its
`unsets` list false (§4.1 cascade, one level deep). -/
def statesSet (v : VideoStates) (n : StateName) : VideoStates :=
  (unsetsOf n).foldl (fun acc u => setVal acc u false) (setVal v n true)

/-- `states.unset( name )`: mark `name` false. -/
def statesUnset (v : VideoStates) (n : StateName) : VideoStates :=
  setVal v n false

/-- The events the modelled operations dispatch, with their detail payloads.
`sourceUpdate` carries the (possibly listener-mutated) detail source, `none`
for an unset; `posterUnset` carries the raw `poster` detail value, which is
`none` for `null` and `some ""` for the empty string. -/
inductive Ev where
  | sourceUpdate (source : Option Source) (setter : Option String)
  | sourceBefore (source : Source) (setter : Option String)
  | sourceSet (source : Source) (setter : Option String)
  | sourceUnset (setter : Option String)
  | posterSet (poster : String)
  | posterUnset (poster : Option String)
deriving DecidableEq, Repr

/-- Exceptions thrown by the component (`UiVideoComponentException` messages,
distinguished by call site). -/
inductive VErr where
  /-- `Argument index must be a number or null` -/
  | indexType
  /-- `Source index #... not found` -/
  | lookup
  /-- `Argument source must be a plain Object` -/
  | sourcePojo
  /-- `Argument source.src must be a non empty string` -/
  | srcRequired
  /-- `Argument poster must be a non empty string` -/
  | posterType
deriving DecidableEq, Repr

/-- The widget state touched by the source-lifecycle operations: the private
selection pair, the state registry, the video element's `<source>` children
(by their `src` attribute) and its `poster` attribute, and the configured
source list. -/
structure Component where
  current_index : Option Int := none
  current_source : Option String := none
  states : VideoStates := {}
  videoChildren : List String := []
  poster : Option String := none
  sources : List Source := []
deriving DecidableEq, Repr

/-- Result of an operation: final widget state, events dispatched during the
call in order, and the thrown exception if the call threw (mutations performed
before the throw are kept, as in JS). -/
inductive Outcome where
  | ok (c : Component) (evs : List Ev)
  | err (e : VErr) (c : Component) (evs : List Ev)
deriving DecidableEq, Repr

/-- The component state an outcome carries. -/
def outC : Outcome → Component
  | .ok c _ => c
  | .err _ c _ => c

/-- The events an outcome carries. -/
def outEvs : Outcome → List Ev
  | .ok _ evs => evs
  | .err _ _ evs => evs

/-- The `poster` argument of `setPoster` after JS default-parameter resolution
(`undefined` already replaced by `null`): `null`, a string, or any other
value. -/
inductive JSPoster where
  | jnull
  | jstr (s : String)
  | jother
deriving DecidableEq, Repr

/-- `UiVideoComponent.setPoster( poster = null )`, lines 496-509.
Throws unless `poster` is `null` or a string. The line
`poster = poster && !poster.length ? null : poster` is modelled faithfully:
for the empty string the `&&` short-circuits on the falsy `''`, so the ternary
takes the else branch and `poster` stays `''` (the line never changes its
argument). The attribute is then set when `poster` is truthy (a non-empty
string) and removed otherwise, and `video.poster.set` / `video.poster.unset`
is dispatched with the detail `{ poster }` holding the current value. -/
def setPoster (c : Component) (poster : JSPoster) : Outcome :=
  match poster with
  | .jother => .err .posterType c []
  | .jnull => .ok { c with poster := none } [.posterUnset none]
  | .jstr s =>
      if s.length ≠ 0 then
        .ok { c with poster := some s } [.posterSet s]
      else
        .ok { c with poster := none } [.posterUnset (some s)]

/-- The listener/plugin environment of one call (see module docstring). -/
structure Env where
  updateMutate : Source → Source
  updateCancel : Option Source → Bool
  hookIndex : Int → Source → Option Int
  hookSource : Int → Source → Option Source

/-- The environment with no registered `source.update` listeners and zero
loaded plugins: nothing is mutated, nothing is canceled, the hook leaves
`data` unmodified (§4.4: zero plugins is valid). -/
def envId : Env where
  updateMutate := fun s => s
  updateCancel := fun _ => false
  hookIndex := fun i _ => some i
  hookSource := fun _ s => some s

/-- JS array indexing `sources[ index ]` for an integral JS number:
negative or past-the-end indices yield `undefined` (`none`). -/
def jsIndex (l : List Source) (i : Int) : Option Source :=
  if i < 0 then none else l.get? i.toNat

/-- `UiVideoComponent.getCurrentSource()`, lines 516-519: the `src` attribute
of the materialized `<source>` element, or `null`. -/
def getCurrentSource (c : Component) : Option String :=
  c.current_source

/-- `UiVideoComponent.getCurrentIndex()`, lines 526-528. -/
def getCurrentIndex (c : Component) : Option Int :=
  c.current_index

/-- The `poster` property of a source object as the value passed to
`setPoster`: an absent property is `undefined`, which the default parameter
`poster = null` turns into `null`. -/
def posterArg : Option String → JSPoster
  | none => .jnull
  | some s => .jstr s

/-- `UiVideoComponent.setSource( source, setter = null )`, lines 537-577.
The `isPojo` guard is discharged by the `Source` type (only plain source
objects are representable); `cloneObject` is the identity on pure values.
Steps, in source order: dispatch cancelable `video.source.update` (listeners
may mutate the detail source in place; a veto returns with no state change);
throw unless `source.src` is a non-empty string; return if `source.src`
equals `getCurrentSource()`; set `loading`, clear the video children
(`innerHTML = ''`) and pause; `setPoster( source.poster )`; dispatch
`video.source.before`; store the new `<source>` element (its `src`
attribute), append it, load, unset `sourceNone`; dispatch
`video.source.set`. `#current_index` is never written here. -/
def setSource (env : Env) (c : Component) (source : Source)
    (setter : Option String) : Outcome :=
  let s1 := env.updateMutate source
  let evU := Ev.sourceUpdate (some s1) setter
  if env.updateCancel (some s1) then .ok c [evU]
  else
    match s1.src with
    | none => .err .srcRequired c [evU]
    | some srcv =>
        if srcv.length = 0 then .err .srcRequired c [evU]
        else if some srcv = getCurrentSource c then .ok c [evU]
        else
          let c1 : Component :=
            { c with states := statesSet c.states .loading, videoChildren := [] }
          match setPoster c1 (posterArg s1.poster) with
          | .err e c2 evsP => .err e c2 (evU :: evsP)
          | .ok c2 evsP =>
              let c3 : Component :=
                { c2 with
                  current_source := some srcv
                  videoChildren := c2.videoChildren ++ [srcv]
                  states := statesUnset c2.states .sourceNone }
              .ok c3 (evU :: evsP ++ [.sourceBefore s1 setter, .sourceSet s1 setter])

/-- `UiVideoComponent.unsetSource( poster = true, setter = null )`,
lines 586-607. Dispatch cancelable `video.source.update` with a `null`
detail source (a veto returns with no state change); set `loading`, clear
the video children and pause; `setPoster()` when `poster` is requested;
clear `#current_index` and `#current_source`; set `sourceNone`; dispatch
`video.source.unset`. -/
def unsetSource (env : Env) (c : Component) (poster : Bool := true)
    (setter : Option String := none) : Outcome :=
  let evU := Ev.sourceUpdate none setter
  if env.updateCancel none then .ok c [evU]
  else
    let c1 : Component :=
      { c with states := statesSet c.states .loading, videoChildren := [] }
    match (if poster then setPoster c1 .jnull else .ok c1 []) with
    | .err e c2 evsP => .err e c2 (evU :: evsP)
    | .ok c2 evsP =>
        let c3 : Component :=
          { c2 with
            current_index := none
            current_source := none
            states := statesSet c2.states .sourceNone }
        .ok c3 (evU :: evsP ++ [.sourceUnset setter])

/-- The `index` argument of `selectSource`: `null`, an (integral) number, or
any other value. -/
inductive JSIdx where
  | jnull
  | jnum (i : Int)
  | jother
deriving DecidableEq, Repr

/-- The `setter` tag `selectSource` passes to `setSource`
(`this.constructor.name + '::selectSource'`). -/
def selectSetter : Option String :=
  some "UiVideoComponent::selectSource"

/-- `UiVideoComponent.selectSource( index = null )`, lines 456-488.
`null` delegates to `unsetSource()`; a non-number throws; a missing entry
at `index` throws the lookup error; the plugin hook
`run( 'selectSource', [ data ] )` may rewrite `data.index` and
`data.source`; if afterwards `data.source` is falsy, `data.index` is not a
number, or `sources[ data.index ]` is missing, the same lookup error is
thrown; only then `#current_index` is committed to `data.index` and
`setSource( data.source, ... )` runs. -/
def selectSource (env : Env) (c : Component) (index : JSIdx) : Outcome :=
  match index with
  | .jnull => unsetSource env c
  | .jother => .err .indexType c []
  | .jnum i =>
      match jsIndex c.sources i with
      | none => .err .lookup c []
      | some source =>
          match env.hookSource i source, env.hookIndex i source with
          | some s2, some j =>
              match jsIndex c.sources j with
              | none => .err .lookup c []
              | some _ =>
                  setSource env { c with current_index := some j } s2 selectSetter
          | _, _ => .err .lookup c []

/-- A freshly initialized widget with no selected source: after `init()` the
states `initialized`, `controlsDefault` and `sourceNone` are set and the
selection pair is null. -/
def freshStates : VideoStates :=
  { initialized := true, controlsDefault := true, sourceNone := true }

/-- Fresh component over a given source list. -/
def freshC (sources : List Source) : Component :=
  { states := freshStates, sources := sources }

/-- Shorthand: a source with just a `src` address. -/
def srcOnly (s : String) : Source :=
  { src := some s }

/-- Whether the call returned normally (no exception). -/
def Outcome.isOk : Outcome → Bool
  | .ok _ _ => true
  | .err _ _ _ => false

/-- Number of `video.source.set` dispatches among a call's events. -/
def countSourceSet (evs : List Ev) : Nat :=
  (evs.filter (fun e => match e with | .sourceSet _ _ => true | _ => false)).length

/-- An environment whose only difference from `envId` is a registered
`video.source.update` listener that calls `event.preventDefault()` on every
dispatch. -/
def envCancel : Env where
  updateMutate := fun s => s
  updateCancel := fun _ => true
  hookIndex := fun i _ => some i
  hookSource := fun _ s => some s

/-- A widget with source `0` active (`current_index = 0`,
`current_source = "A"`) and `sourceNone` cleared. -/
def cSel : Component :=
  { current_index := some 0
    current_source := some "A"
    states := { initialized := true, controlsDefault := true }
    videoChildren := ["A"]
    sources := [srcOnly "A", srcOnly "B"] }

/-! ## Sound plugin (`UiVideoPluginSound`) -/

/-- The sound options read from config (`sound.mutedmax`, `sound.volumemin`,
`sound.firstunmute`), as validated numbers. -/
structure SoundConfig where
  mutedmax : ℚ := 0
  volumemin : ℚ := 0
  firstunmute : ℚ := 65
deriving DecidableEq, Repr

/-- The sound plugin's mutable state: `video.muted`, the video volume on the
0–100 percent scale (`video.volume * 100`), the private `#last_volume`
(initially `0`) and the `#first_unmute` marker (initially `true`). -/
structure SoundState where
  muted : Bool := false
  volume : ℚ := 0
  last_volume : ℚ := 0
  first_unmute : Bool := true
deriving DecidableEq, Repr

/-- `UiVideoPluginSound.#sound_mute( saveLast )`, lines 511-519: optionally
record the current volume as `#last_volume`, then force the volume to `0`
and set `video.muted`. -/
def sound_mute (st : SoundState) (saveLast : Bool) : SoundState :=
  { st with
    last_volume := if saveLast then st.volume else st.last_volume
    volume := 0
    muted := true }

/-- `UiVideoPluginSound.#sound_unmute()`, lines 526-545: clear `video.muted`;
if `#last_volume` is at/below `sound.mutedmax`, raise it to
`sound.volumemin`; then, if this is the first unmute and `#last_volume` is
*still* at/below `sound.mutedmax`, replace it with `sound.firstunmute` and
clear the `#first_unmute` marker; finally apply `#last_volume` as the video
volume (`video.volume = #last_volume / 100`, i.e. `#last_volume` percent). -/
def sound_unmute (cfg : SoundConfig) (st : SoundState) : SoundState :=
  let last1 := if st.last_volume ≤ cfg.mutedmax then cfg.volumemin else st.last_volume
  let fire := st.first_unmute ∧ last1 ≤ cfg.mutedmax
  let last2 := if fire then cfg.firstunmute else last1
  { muted := false
    volume := last2
    last_volume := last2
    first_unmute := if fire then false else st.first_unmute }

/-- A config value as read for the option validation in
`UiVideoPluginSound.initComponent`: a JS number or anything else. -/
inductive JSNum where
  | num (q : ℚ)
  | other
deriving DecidableEq, Repr

/-- `UiVideoPluginSoundException` cases thrown by `initComponent`. -/
inductive SoundErr where
  /-- `Options sound.mutedmax and sound.volumemin must be numbers from 0 to 100` -/
  | optionType
  /-- `Options sound.mutedmax must be smaller or equal to sound.volumemin` -/
  | optionRange
deriving DecidableEq, Repr

/-- The option validation at the head of `UiVideoPluginSound.initComponent`,
lines 169-181: `smin` is `sound.mutedmax`, `vmax` is `sound.volumemin`;
throw unless both are numbers, then throw when `smin > vmax`. Returns the
exception thrown, if any. -/
def sound_initComponent (smin vmax : JSNum) : Option SoundErr :=
  match smin, vmax with
  | .num a, .num b => if a > b then some .optionRange else none
  | _, _ => some .optionType

/-! ## Responsive plugin (`UiVideoPluginResponsive`) -/

/-- `Object.assign( source, breakpoint )`: the fields present on the
breakpoint override overwrite the candidate's fields; absent fields leave
the candidate untouched. -/
def assignSource (s : Source) (p : SourceOverride) : Source :=
  { s with
    src := match p.src with | some v => some v | none => s.src
    type := match p.type with | some v => some v | none => s.type
    poster := match p.poster with | some v => some v | none => s.poster }

/-- `UiVideoPluginResponsive.#responsive_update_source( source )`,
lines 782-799 (with the default `responsive.propertyName`): when the
candidate carries a pojo breakpoint map, walk `Object.entries` of that map
in declaration order and, for every query that currently `matches`, shallow
`Object.assign` its override onto the candidate. -/
def responsive_update_source (mq : String → Bool) (s : Source) : Source :=
  match s.responsive with
  | none => s
  | some entries =>
      entries.foldl (fun acc e => if mq e.1 then assignSource acc e.2 else acc) s

/-! ## Helper lemmas -/

/-- `setPoster` never touches the selection pair, the registry or the video
children: only the poster attribute (and the dispatched events) change. -/
theorem setPoster_frame (c : Component) (p : JSPoster) :
    (outC (setPoster c p)).current_index = c.current_index ∧
    (outC (setPoster c p)).current_source = c.current_source ∧
    (outC (setPoster c p)).states = c.states ∧
    (outC (setPoster c p)).videoChildren = c.videoChildren ∧
    (outC (setPoster c p)).sources = c.sources := by
  cases p with
  | jother => simp [setPoster, outC]
  | jnull => simp [setPoster, outC]
  | jstr s =>
      by_cases h : s.length = 0
      · simp [setPoster, outC, h]
      · simp [setPoster, outC, h]

/-- `setSource` never writes `#current_index` (lines 537-577 contain no
assignment to it). -/
theorem setSource_preserves_index (env : Env) (c : Component) (s : Source)
    (st : Option String) :
    (outC (setSource env c s st)).current_index = c.current_index := by
  unfold setSource
  dsimp only
  split
  · rfl
  · split
    · rfl
    · split
      · rfl
      · split
        · rfl
        · cases hp : setPoster
              { c with states := statesSet c.states .loading, videoChildren := [] }
              (posterArg ((env.updateMutate s).poster)) with
          | ok c2 evs =>
              have h := (setPoster_frame
                { c with states := statesSet c.states .loading, videoChildren := [] }
                (posterArg ((env.updateMutate s).poster))).1
              rw [hp] at h
              simp only [outC] at h ⊢
              exact h
          | err e c2 evs =>
              have h := (setPoster_frame
                { c with states := statesSet c.states .loading, videoChildren := [] }
                (posterArg ((env.updateMutate s).poster))).1
              rw [hp] at h
              simp only [outC] at h ⊢
              exact h

/-- With no veto, as called from `setSource` (`posterArg` never produces a
non-string non-null value) `setPoster` cannot throw. -/
theorem setPoster_posterArg_ok (c : Component) (o : Option String) :
    ∃ c2 evs, setPoster c (posterArg o) = .ok c2 evs := by
  cases o with
  | none => exact ⟨_, _, rfl⟩
  | some s =>
      simp only [posterArg, setPoster]
      split
      · exact ⟨_, _, rfl⟩
      · exact ⟨_, _, rfl⟩

/-! ## Claims about the plugin algorithms -/

/-- C3 counterexample: with `mutedmax = 5`, `volumemin = 10`,
`firstunmute = 65`, starting muted at volume `0` with the first-unmute flag
set, the first `unmute()` sets the volume to `10`, not `65`: the claim's
concrete scenario is false on the code, because `#sound_unmute` raises
`#last_volume` to `volumemin` *before* testing the first-unmute branch, and
`10 ≤ 5` fails, so the `firstunmute` substitution never runs. -/
theorem C3_counterexample :
    (sound_unmute { mutedmax := 5, volumemin := 10, firstunmute := 65 }
        { muted := true, volume := 0, last_volume := 0, first_unmute := true }).volume ≠ 65 ∧
    (sound_unmute { mutedmax := 5, volumemin := 10, firstunmute := 65 }
        { muted := true, volume := 0, last_volume := 0, first_unmute := true }).volume = 10 := by
  constructor <;> decide

/-- C3 (amended): in the claim's scenario (`mutedmax = 5`, `volumemin = 10`,
`firstunmute = 65`, starting muted at volume `0`, flag set) the first
`unmute()` sets the volume to `10` (the `volumemin` floor) and leaves the
first-unmute flag set, and `mute()` followed by a second `unmute()` again
yields `10`. In general `unmute()` clears muted and raises `#last_volume`
to `volumemin` when it is at/below `mutedmax`; the `firstunmute`
substitution fires only when the flag is set and the volume is *still*
at/below `mutedmax` after that raise — so whenever `mutedmax < volumemin`
it never fires, while when the flag is set and `volumemin ≤ mutedmax` it
sets `firstunmute` and clears the flag permanently. -/
theorem C3_amended :
    ((sound_unmute { mutedmax := 5, volumemin := 10, firstunmute := 65 }
        { muted := true, volume := 0, last_volume := 0, first_unmute := true }).volume = 10 ∧
     (sound_unmute { mutedmax := 5, volumemin := 10, firstunmute := 65 }
        { muted := true, volume := 0, last_volume := 0, first_unmute := true }).first_unmute = true ∧
     (sound_unmute { mutedmax := 5, volumemin := 10, firstunmute := 65 }
        (sound_mute
          (sound_unmute { mutedmax := 5, volumemin := 10, firstunmute := 65 }
            { muted := true, volume := 0, last_volume := 0, first_unmute := true })
          true)).volume = 10) ∧
    (∀ (cfg : SoundConfig) (st : SoundState),
      cfg.mutedmax < cfg.volumemin →
      st.last_volume ≤ cfg.mutedmax →
      (sound_unmute cfg st).volume = cfg.volumemin ∧
      (sound_unmute cfg st).muted = false ∧
      (sound_unmute cfg st).first_unmute = st.first_unmute) ∧
    (∀ (cfg : SoundConfig) (st : SoundState),
      st.first_unmute = true →
      st.last_volume ≤ cfg.mutedmax →
      cfg.volumemin ≤ cfg.mutedmax →
      (sound_unmute cfg st).volume = cfg.firstunmute ∧
      (sound_unmute cfg st).first_unmute = false) := by
  refine ⟨by refine ⟨by decide, by decide, by decide⟩, ?_, ?_⟩
  · intro cfg st hlt hle
    have hnot : ¬ cfg.volumemin ≤ cfg.mutedmax := not_le.mpr hlt
    simp [sound_unmute, hle, hnot]
  · intro cfg st hflag hle hmin
    simp [sound_unmute, hle, hmin, hflag]

/-- C3 witness: the general `volumemin`-floor clause of the amended claim at
the concrete configuration of the scenario. -/
theorem C3_witness :
    (sound_unmute { mutedmax := 5, volumemin := 10, firstunmute := 65 }
        { muted := true, volume := 3, last_volume := 3, first_unmute := true }).volume = 10 :=
  (C3_amended.2.1 { mutedmax := 5, volumemin := 10, firstunmute := 65 }
    { muted := true, volume := 3, last_volume := 3, first_unmute := true }
    (by norm_num) (by norm_num)).1

/-- C10: the option validation at the head of
`UiVideoPluginSound.initComponent` succeeds exactly when both
`sound.mutedmax` and `sound.volumemin` are numbers with
`mutedmax ≤ volumemin`; otherwise it throws a
`UiVideoPluginSoundException` — so every widget whose sound plugin
finished initialization satisfies `mutedmax ≤ volumemin`. -/
theorem C10_initComponent_precondition :
    ∀ smin vmax : JSNum,
      sound_initComponent smin vmax = none ↔
        ∃ a b : ℚ, smin = .num a ∧ vmax = .num b ∧ a ≤ b := by
  intro smin vmax
  cases smin with
  | other => cases vmax <;> simp [sound_initComponent]
  | num a =>
      cases vmax with
      | other => simp [sound_initComponent]
      | num b =>
          by_cases h : a > b
          · simp only [sound_initComponent, if_pos h]
            exact iff_of_false (by simp) (by
              rintro ⟨x, y, hx, hy, hxy⟩
              cases hx
              cases hy
              exact absurd hxy (not_le.mpr h))
          · simp only [sound_initComponent, if_neg h]
            exact iff_of_true (by simp) ⟨a, b, rfl, rfl, not_lt.mp h⟩

/-- C8: responsive source resolution merges every matching breakpoint's
overrides onto the candidate in declaration order. Concretely, with
`{'(min-width:0px)': {src:'A'}, '(min-width:500px)': {src:'B'}}` both
matching, the resolved `src` is `'B'`. In general a matching entry placed
last in declaration order wins for the fields it sets, and entries whose
query does not match leave the candidate untouched. -/
theorem C8_responsive_order :
    ((responsive_update_source (fun _ => true)
        { src := some "X"
          responsive := some
            [("(min-width:0px)", { src := some "A" }),
             ("(min-width:500px)", { src := some "B" })] }).src = some "B") ∧
    (∀ (mq : String → Bool) (s : Source) (l : List (String × SourceOverride))
        (q : String) (bp : SourceOverride) (v : String),
      s.responsive = some (l ++ [(q, bp)]) → mq q = true → bp.src = some v →
      (responsive_update_source mq s).src = some v) ∧
    (∀ (mq : String → Bool) (s : Source) (l : List (String × SourceOverride)),
      s.responsive = some l → (∀ e ∈ l, mq e.1 = false) →
      responsive_update_source mq s = s) := by
  refine ⟨by decide, ?_, ?_⟩
  · intro mq s l q bp v hresp hmq hsrc
    simp [responsive_update_source, hresp, List.foldl_append, hmq, assignSource, hsrc]
  · intro mq s l hresp hall
    have aux : ∀ (l' : List (String × SourceOverride)) (acc : Source),
        (∀ e ∈ l', mq e.1 = false) →
        l'.foldl (fun acc e => if mq e.1 then assignSource acc e.2 else acc) acc = acc := by
      intro l'
      induction l' with
      | nil => intro acc _; rfl
      | cons hd tl ih =>
          intro acc hall'
          rw [List.foldl_cons,
            if_neg (by simp [hall' hd (List.mem_cons_self hd tl)])]
          exact ih acc (fun e he => hall' e (List.mem_cons_of_mem hd he))
    simp only [responsive_update_source, hresp]
    exact aux l s hall

/-- C8 witness: the later-declaration-wins clause of the theorem at the
spec's concrete breakpoint map. -/
theorem C8_witness :
    (responsive_update_source (fun _ => true)
        { src := some "X"
          responsive := some
            [("(min-width:0px)", { src := some "A" }),
             ("(min-width:500px)", { src := some "B" })] }).src = some "B" :=
  C8_responsive_order.2.1 (fun _ => true)
    { src := some "X"
      responsive := some
        [("(min-width:0px)", { src := some "A" }),
         ("(min-width:500px)", { src := some "B" })] }
    [("(min-width:0px)", { src := some "A" })]
    "(min-width:500px)" { src := some "B" } "B" rfl rfl rfl

/-- C9: `setPoster` evaluated at the failing input `''`. The attribute is
removed and `video.poster.unset` is dispatched, as for `null`, but the
dispatched detail carries `''` where `setPoster(null)` carries `null`: the
conversion line `poster = poster && !poster.length ? null : poster` is dead
code (`''` is falsy, so the `&&` short-circuits and the ternary returns the
argument unchanged), contradicting its evident intent and the claim's
"behaving exactly as setPoster(null) does, including the dispatched
detail". The remaining clauses of the claim hold: a non-empty string sets
the attribute and dispatches `video.poster.set`, and a non-null non-string
argument throws. -/
theorem C9_empty_string_detail :
    setPoster (freshC []) (.jstr "") =
      .ok (freshC []) [.posterUnset (some "")] ∧
    setPoster (freshC []) .jnull =
      .ok (freshC []) [.posterUnset none] ∧
    some "" ≠ (none : Option String) ∧
    setPoster (freshC []) (.jstr "u") =
      .ok { freshC [] with poster := some "u" } [.posterSet "u"] ∧
    setPoster (freshC []) .jother = .err .posterType (freshC []) [] := by
  refine ⟨by decide, by decide, by decide, by decide, by decide⟩

/-! ## Claims about the source-lifecycle controller -/

/-- A non-vetoed `unsetSource` call runs to completion: `loading` then
`sourceNone` on the registry, video children cleared, poster cleared when
requested, both selection fields nulled, events in source order. -/
theorem unsetSource_not_canceled (env : Env) (c : Component) (p : Bool)
    (st : Option String) (hc : env.updateCancel none = false) :
    unsetSource env c p st =
      .ok { c with
              current_index := none
              current_source := none
              states := statesSet (statesSet c.states .loading) .sourceNone
              videoChildren := []
              poster := if p then none else c.poster }
        (.sourceUpdate none st ::
          (if p then [Ev.posterUnset none] else []) ++ [.sourceUnset st]) := by
  cases p <;> simp [unsetSource, hc, setPoster]

/-- Under a non-vetoed dispatch, a `setSource` call that returns normally
leaves a non-null `#current_source`: either it took the src-equality no-op
(which requires the active source to equal the requested one) or it
materialized the new source. -/
theorem setSource_ok_source (env : Env) (c : Component) (s : Source)
    (st : Option String) (c' : Component) (evs : List Ev)
    (hc : env.updateCancel (some (env.updateMutate s)) = false)
    (h : setSource env c s st = .ok c' evs) :
    c'.current_source ≠ none := by
  simp only [setSource, hc, Bool.false_eq_true, if_false] at h
  split at h
  · exact absurd h (by simp)
  · rename_i srcv hsrc
    split at h
    · exact absurd h (by simp)
    · split at h
      · rename_i hlen heqsrc
        injection h with h1 h2
        subst h1
        simp only [getCurrentSource] at heqsrc
        intro hnone
        rw [hnone] at heqsrc
        exact Option.noConfusion heqsrc
      · obtain ⟨c2, evs2, hp⟩ := setPoster_posterArg_ok
          { c with states := statesSet c.states .loading, videoChildren := [] }
          ((env.updateMutate s).poster)
        rw [hp] at h
        injection h with h1 h2
        subst h1
        simp

/-- C1 counterexample: a direct `setSource` call with a valid source on a
fresh widget (both selection fields null) completes normally and
materializes a source without ever writing `#current_index`, leaving
`currentSource` non-null while `currentIndex` is null — the claimed iff
invariant is not preserved by a direct `setSource` call. -/
theorem C1_counterexample :
    (setSource envId (freshC [srcOnly "A"]) (srcOnly "A") none).isOk = true ∧
    (outC (setSource envId (freshC [srcOnly "A"]) (srcOnly "A") none)).current_source
      = some "A" ∧
    (outC (setSource envId (freshC [srcOnly "A"]) (srcOnly "A") none)).current_index
      = none := by
  refine ⟨by decide, by decide, by decide⟩

/-- C1 (amended): the iff between `#current_index` and `#current_source`
holds after the operations that manage both fields together: a non-vetoed
`unsetSource` nulls both, and a `selectSource` that completes normally with
no listener vetoing `source.update` leaves both non-null. It is not
preserved by a direct `setSource` call (which never writes
`#current_index`) nor by a veto inside `selectSource` (which leaves the
committed index without its source), as the counterexample shows. -/
theorem C1_amended :
    (∀ (env : Env) (c : Component) (p : Bool) (st : Option String),
      env.updateCancel none = false →
      (outC (unsetSource env c p st)).current_index = none ∧
      (outC (unsetSource env c p st)).current_source = none) ∧
    (∀ (env : Env) (c : Component) (i : Int) (c' : Component) (evs : List Ev),
      (∀ o, env.updateCancel o = false) →
      selectSource env c (.jnum i) = .ok c' evs →
      c'.current_index ≠ none ∧ c'.current_source ≠ none) := by
  constructor
  · intro env c p st hc
    rw [unsetSource_not_canceled env c p st hc]
    exact ⟨rfl, rfl⟩
  · intro env c i c' evs hc h
    simp only [selectSource] at h
    cases hsi : jsIndex c.sources i with
    | none => rw [hsi] at h; exact absurd h (by simp)
    | some source =>
        rw [hsi] at h
        dsimp only at h
        cases hhs : env.hookSource i source with
        | none => rw [hhs] at h; exact absurd h (by simp)
        | some s2 =>
            rw [hhs] at h
            try dsimp only at h
            cases hhi : env.hookIndex i source with
            | none => rw [hhi] at h; exact absurd h (by simp)
            | some j =>
                rw [hhi] at h
                try dsimp only at h
                cases hjj : jsIndex c.sources j with
                | none => rw [hjj] at h; exact absurd h (by simp)
                | some w =>
                    rw [hjj] at h
                    try dsimp only at h
                    constructor
                    · have hidx := setSource_preserves_index env
                        { c with current_index := some j } s2 selectSetter
                      rw [h] at hidx
                      simp only [outC] at hidx
                      rw [hidx]
                      simp
                    · exact setSource_ok_source env
                        { c with current_index := some j } s2 selectSetter c' evs
                        (hc _) h

/-- C1 witness: the `unsetSource` clause of the amended invariant at a
concrete widget with an active source. -/
theorem C1_witness :
    (outC (unsetSource envId cSel true none)).current_index = none ∧
    (outC (unsetSource envId cSel true none)).current_source = none :=
  C1_amended.1 envId cSel true none rfl

/-- C4 counterexample: a listener that cancels the cancelable
`video.source.update` aborts `unsetSource` entirely: on a widget with
source `0` active the call returns normally but `currentIndex` stays `0`,
`currentSource` stays `"A"` and `sourceNone` stays unset — `unsetSource()`
does *not* result in a cleared selection for every set of listeners. -/
theorem C4_counterexample :
    unsetSource envCancel cSel true none = .ok cSel [.sourceUpdate none none] ∧
    cSel.current_index = some 0 ∧
    cSel.current_source = some "A" ∧
    getVal cSel.states .sourceNone = false := by
  refine ⟨by decide, by decide, by decide, by decide⟩

/-- C4 (amended): every `unsetSource()` call whose cancelable
`video.source.update` dispatch is not vetoed completes normally with
`currentIndex === null`, `currentSource === null` and the `sourceNone`
state set; a vetoed call aborts with no state change. -/
theorem C4_amended :
    ∀ (env : Env) (c : Component) (p : Bool) (st : Option String),
      env.updateCancel none = false →
      (unsetSource env c p st).isOk = true ∧
      (outC (unsetSource env c p st)).current_index = none ∧
      (outC (unsetSource env c p st)).current_source = none ∧
      getVal (outC (unsetSource env c p st)).states .sourceNone = true := by
  intro env c p st hc
  rw [unsetSource_not_canceled env c p st hc]
  refine ⟨rfl, rfl, rfl, ?_⟩
  simp [outC, statesSet, unsetsOf, getVal, setVal]

/-- C4 witness: the amended claim at a concrete widget with source `0`
active and no vetoing listener. -/
theorem C4_witness :
    (unsetSource envId cSel true none).isOk = true ∧
    (outC (unsetSource envId cSel true none)).current_index = none ∧
    (outC (unsetSource envId cSel true none)).current_source = none ∧
    getVal (outC (unsetSource envId cSel true none)).states .sourceNone = true :=
  C4_amended envId cSel true none rfl

/-- C2 counterexample: with a listener that cancels every
`video.source.update`, `selectSource(0)` on a fresh widget still returns
normally with `currentIndex` committed to `0` — the index was written
*before* `setSource` dispatched the cancelable event, so a veto reached
through `selectSource` does not leave `currentIndex` as it was. -/
theorem C2_counterexample :
    selectSource envCancel (freshC [srcOnly "A"]) (.jnum 0) =
      .ok { freshC [srcOnly "A"] with current_index := some 0 }
        [.sourceUpdate (some (srcOnly "A")) selectSetter] ∧
    (freshC [srcOnly "A"]).current_index = none := by
  refine ⟨by decide, by decide⟩

/-- C2 (amended): a canceled `source.update` makes a *direct* `setSource`
or `unsetSource` invocation a complete no-op — the component state is
returned exactly as it was, with only the `source.update` dispatch
performed. When the canceled `setSource` is reached through
`selectSource`, everything except `#current_index` is unchanged:
`selectSource` has already committed the (possibly hook-rewritten) index
before `setSource` dispatches the cancelable event. -/
theorem C2_amended :
    (∀ (env : Env) (c : Component) (s : Source) (st : Option String),
      env.updateCancel (some (env.updateMutate s)) = true →
      setSource env c s st = .ok c [.sourceUpdate (some (env.updateMutate s)) st]) ∧
    (∀ (env : Env) (c : Component) (p : Bool) (st : Option String),
      env.updateCancel none = true →
      unsetSource env c p st = .ok c [.sourceUpdate none st]) ∧
    (∀ (env : Env) (c : Component) (i : Int) (source s2 : Source) (j : Int) (w : Source),
      jsIndex c.sources i = some source →
      env.hookSource i source = some s2 →
      env.hookIndex i source = some j →
      jsIndex c.sources j = some w →
      env.updateCancel (some (env.updateMutate s2)) = true →
      selectSource env c (.jnum i) =
        .ok { c with current_index := some j }
          [.sourceUpdate (some (env.updateMutate s2)) selectSetter]) := by
  refine ⟨?_, ?_, ?_⟩
  · intro env c s st hcancel
    simp [setSource, hcancel]
  · intro env c p st hcancel
    simp [unsetSource, hcancel]
  · intro env c i source s2 j w h1 h2 h3 h4 hcancel
    simp only [selectSource, h1, h2, h3, h4]
    simp [setSource, hcancel]

/-- C2 witness: the direct-`setSource` clause of the amended claim at a
concrete widget and canceling listener. -/
theorem C2_witness :
    setSource envCancel cSel (srcOnly "B") none =
      .ok cSel [.sourceUpdate (some (srcOnly "B")) none] :=
  C2_amended.1 envCancel cSel (srcOnly "B") none rfl

/-- A `setSource` call that passes every guard (not vetoed, source not
mutated, non-empty `src` differing from the active one) runs the full
update: `loading` set, children replaced by the new `<source>`, poster
applied from the source object, `sourceNone` cleared, and the events
`source.update`, `poster.*`, `source.before`, `source.set` dispatched in
source order. -/
theorem setSource_main (env : Env) (c : Component) (s : Source) (v : String)
    (st : Option String)
    (hm : env.updateMutate s = s)
    (hc : env.updateCancel (some s) = false)
    (hs : s.src = some v)
    (hv : v.length ≠ 0)
    (hne : ¬ some v = getCurrentSource c) :
    setSource env c s st =
      .ok { c with
              current_source := some v
              videoChildren := [v]
              states := statesUnset (statesSet c.states .loading) .sourceNone
              poster := match s.poster with
                        | none => none
                        | some p => if p.length ≠ 0 then some p else none }
        (.sourceUpdate (some s) st ::
          (match s.poster with
           | none => [Ev.posterUnset none]
           | some p =>
              if p.length ≠ 0 then [Ev.posterSet p] else [Ev.posterUnset (some p)])
          ++ [.sourceBefore s st, .sourceSet s st]) := by
  cases hp : s.poster with
  | none =>
      simp [setSource, hm, hc, hs, hv, hne, setPoster, posterArg, hp]
  | some p =>
      by_cases hl : p.length = 0
      · simp [setSource, hm, hc, hs, hv, hne, setPoster, posterArg, hp, hl]
      · simp [setSource, hm, hc, hs, hv, hne, setPoster, posterArg, hp, hl]

/-- C5: `setSource` is idempotent in the source address. For every plain
source object with a non-empty `src`, with no listener canceling or
mutating the `source.update` detail, the first call completes and
dispatches exactly one `video.source.set`; the second call with the
identical `src` returns after the src-equality check as a pure no-op — the
state is returned unchanged and only the `source.update` dispatch (no
`source.set`) happens. -/
theorem C5_setSource_idempotent :
    ∀ (env : Env) (c : Component) (s : Source) (v : String) (st : Option String),
      (∀ x, env.updateMutate x = x) →
      (∀ o, env.updateCancel o = false) →
      s.src = some v →
      v ≠ "" →
      c.current_source ≠ some v →
      (setSource env c s st).isOk = true ∧
      countSourceSet (outEvs (setSource env c s st)) = 1 ∧
      setSource env (outC (setSource env c s st)) s st =
        .ok (outC (setSource env c s st)) [.sourceUpdate (some s) st] ∧
      countSourceSet [Ev.sourceUpdate (some s) st] = 0 := by
  intro env c s v st hm hc hs hv hne
  have hlen : v.length ≠ 0 := by
    intro h0
    apply hv
    cases v with
    | mk data =>
        simp [String.length] at h0
        simp [h0]
  have hne' : ¬ some v = getCurrentSource c := by
    intro he
    exact hne (by simpa [getCurrentSource] using he.symm)
  rw [setSource_main env c s v st (hm s) (hc _) hs hlen hne']
  refine ⟨rfl, ?_, ?_, rfl⟩
  · cases hp : s.poster with
    | none => simp [countSourceSet, outEvs]
    | some p =>
        by_cases hl : p.length = 0 <;> simp [countSourceSet, outEvs, hl]
  · simp only [outC]
    simp [setSource, hm s, hc, hs, hlen, getCurrentSource]

/-- C5 witness: the idempotency theorem at a fresh widget and the source
`{src: 'A'}` with no listeners. -/
theorem C5_witness :
    (setSource envId (freshC []) (srcOnly "A") none).isOk = true ∧
    countSourceSet (outEvs (setSource envId (freshC []) (srcOnly "A") none)) = 1 ∧
    setSource envId (outC (setSource envId (freshC []) (srcOnly "A") none))
        (srcOnly "A") none =
      .ok (outC (setSource envId (freshC []) (srcOnly "A") none))
        [.sourceUpdate (some (srcOnly "A")) none] ∧
    countSourceSet [Ev.sourceUpdate (some (srcOnly "A")) none] = 0 :=
  C5_setSource_idempotent envId (freshC []) (srcOnly "A") "A" none
    (fun _ => rfl) (fun _ => rfl) rfl (by decide) (by decide)

/-- C6: `selectSource` validation. For a numeric index, a missing entry in
the source list fails with the lookup error before anything is committed;
after the plugin hook possibly rewrote `{index, source}`, a falsy source, a
non-numeric index, or a missing entry at the rewritten index fails with the
same lookup error, again before anything is committed; and only when the
re-validation passes is `#current_index` committed to the rewritten index
and `setSource` invoked on the rewritten source. -/
theorem C6_selectSource_validation :
    (∀ (env : Env) (c : Component) (i : Int),
      jsIndex c.sources i = none →
      selectSource env c (.jnum i) = .err .lookup c []) ∧
    (∀ (env : Env) (c : Component) (i : Int) (source : Source),
      jsIndex c.sources i = some source →
      (env.hookSource i source = none ∨ env.hookIndex i source = none ∨
        (∃ j, env.hookIndex i source = some j ∧ jsIndex c.sources j = none)) →
      selectSource env c (.jnum i) = .err .lookup c []) ∧
    (∀ (env : Env) (c : Component) (i : Int) (source s2 : Source) (j : Int) (w : Source),
      jsIndex c.sources i = some source →
      env.hookSource i source = some s2 →
      env.hookIndex i source = some j →
      jsIndex c.sources j = some w →
      selectSource env c (.jnum i) =
        setSource env { c with current_index := some j } s2 selectSetter) := by
  refine ⟨?_, ?_, ?_⟩
  · intro env c i h
    simp [selectSource, h]
  · intro env c i source h hbad
    rcases hbad with hs | hi | ⟨j, hj, hnone⟩
    · cases hhi : env.hookIndex i source <;> simp [selectSource, h, hs, hhi]
    · cases hhs : env.hookSource i source <;> simp [selectSource, h, hi, hhs]
    · simp [selectSource, h, hj, hnone]
      cases hhs : env.hookSource i source <;> simp [hhs, hnone]
  · intro env c i source s2 j w h1 h2 h3 h4
    simp [selectSource, h1, h2, h3, h4]

/-- C6 witness: the pre-hook out-of-range clause at a concrete widget with
a single source and index `5`. -/
theorem C6_witness :
    selectSource envId (freshC [srcOnly "A"]) (.jnum 5) =
      .err .lookup (freshC [srcOnly "A"]) [] :=
  C6_selectSource_validation.1 envId (freshC [srcOnly "A"]) 5 (by decide)

/-- C7: when `selectSource(i)` returns normally, the committed
`#current_index` reported by `getCurrentIndex()` is exactly the index the
plugin hook produced for the entry found at `i`; in particular when the
hook does not rewrite the index it is `i` itself. -/
theorem C7_selectSource_index :
    ∀ (env : Env) (c : Component) (i : Int) (source : Source)
      (c' : Component) (evs : List Ev),
      jsIndex c.sources i = some source →
      selectSource env c (.jnum i) = .ok c' evs →
      getCurrentIndex c' = env.hookIndex i source ∧
      (env.hookIndex i source = some i → getCurrentIndex c' = some i) := by
  intro env c i source c' evs hsi h
  simp only [selectSource] at h
  rw [hsi] at h
  dsimp only at h
  cases hhs : env.hookSource i source with
  | none => rw [hhs] at h; exact absurd h (by simp)
  | some s2 =>
      rw [hhs] at h
      try dsimp only at h
      cases hhi : env.hookIndex i source with
      | none => rw [hhi] at h; exact absurd h (by simp)
      | some j =>
          rw [hhi] at h
          try dsimp only at h
          cases hjj : jsIndex c.sources j with
          | none => rw [hjj] at h; exact absurd h (by simp)
          | some w =>
              rw [hjj] at h
              try dsimp only at h
              have hidx := setSource_preserves_index env
                { c with current_index := some j } s2 selectSetter
              rw [h] at hidx
              simp only [outC] at hidx
              constructor
              · simpa [getCurrentIndex] using hidx
              · intro hj
                injection hj with hj'
                subst hj'
                simpa [getCurrentIndex] using hidx

/-- C7 witness: the theorem at a fresh widget, index `0` and the
zero-plugin identity hook. -/
theorem C7_witness :
    getCurrentIndex (outC (selectSource envId (freshC [srcOnly "A"]) (.jnum 0)))
        = envId.hookIndex 0 (srcOnly "A") ∧
    (envId.hookIndex 0 (srcOnly "A") = some 0 →
      getCurrentIndex (outC (selectSource envId (freshC [srcOnly "A"]) (.jnum 0)))
        = some 0) :=
  C7_selectSource_index envId (freshC [srcOnly "A"]) 0 (srcOnly "A")
    (outC (selectSource envId (freshC [srcOnly "A"]) (.jnum 0)))
    (outEvs (selectSource envId (freshC [srcOnly "A"]) (.jnum 0)))
    (by decide) (by decide)
